import Mathlib

/-!
Verification of the kendoai-mcp server (src/server.ts, src/types.ts, src/env.ts)
against its natural-language specification.

The development shallowly embeds the TypeScript source:
* `Json` models JSON values as delivered by `response.json()` and consumed by
  `JSON.stringify`; JavaScript truthiness, template-literal interpolation and
  property access (including the `TypeError` thrown when reading a property of
  `undefined` or `null`) are modelled explicitly.
* `parseACT` embeds the zod schema `ACTComponentSchema` from src/types.ts
  (`z.lazy(() => z.object({component: z.string(), description: z.string(),
  mcpQuery: z.string().nullable(), children: z.union([z.array(ACTComponentSchema),
  z.string()])}))`): acceptance requires every shape key to be present, `mcpQuery`
  may be the explicit `null`, and `children` is an array of recursively valid
  nodes or a plain string.
* `planner_tool`, `structure_tool` and `merger_tool` embed the three tool
  handlers of src/server.ts, including their dedented report templates, the
  `!result.success && !result.data` error check, and the try/catch structure
  (a throw inside the try body lands in the network-error report).
* `startup` embeds the module-evaluation order: `env.ts` runs
  `envSchema.parse(process.env)` (throwing on a missing or empty variable)
  before any `registerTool` call in server.ts executes.

Clock reads (`new Date().toISOString()`, `Date.now()`) are passed as explicit
parameters, and the remote collaborator's behaviour (a JSON response envelope,
or a thrown transport fault) is an explicit input.
-/

namespace KendoMcp

/-- JSON values, as produced by `response.json()` in the handlers. -/
inductive Json where
  | null : Json
  | bool (b : Bool) : Json
  | num (n : Int) : Json
  | str (s : String) : Json
  | arr (elems : List Json) : Json
  | obj (fields : List (String × Json)) : Json

/-- First-match key lookup in a JSON object, as JavaScript property access. -/
def lookupField : List (String × Json) → String → Option Json
  | [], _ => none
  | (k, v) :: rest, key => if k = key then some v else lookupField rest key

/-- JavaScript truthiness of a possibly-absent (`undefined`) JSON value,
as used by the `!result.success && !result.data` checks. -/
def jsTruthy : Option Json → Bool
  | none => false
  | some Json.null => false
  | some (Json.bool b) => b
  | some (Json.num n) => n != 0
  | some (Json.str s) => s != ""
  | some (Json.arr _) => true
  | some (Json.obj _) => true

mutual

/-- JavaScript string conversion of a JSON value, as performed by
template-literal interpolation. -/
def jsToString : Json → String
  | Json.null => "null"
  | Json.bool true => "true"
  | Json.bool false => "false"
  | Json.num n => toString n
  | Json.str s => s
  | Json.arr elems => joinElems elems
  | Json.obj _ => "[object Object]"

/-- `Array.prototype.toString`: elements joined with commas, `null` elements
rendered empty. -/
def joinElems : List Json → String
  | [] => ""
  | [Json.null] => ""
  | [x] => jsToString x
  | Json.null :: y :: rest => "," ++ joinElems (y :: rest)
  | x :: y :: rest => jsToString x ++ "," ++ joinElems (y :: rest)

end

/-- Template-literal interpolation of a possibly-absent value
(`undefined` prints as the string "undefined"). -/
def interp : Option Json → String
  | none => "undefined"
  | some j => jsToString j

/-- The JavaScript expression `v || dflt`, interpolated into a template:
the value when truthy, otherwise the default string. -/
def jsOrDefault (v : Option Json) (dflt : String) : String :=
  if jsTruthy v then interp v else dflt

/-- Lower-case hexadecimal digit, for JSON control-character escapes. -/
def hexDigit (n : Nat) : Char :=
  if n < 10 then Char.ofNat (48 + n) else Char.ofNat (87 + n)

/-- `JSON.stringify` escaping of a single character. -/
def escChar (c : Char) : String :=
  if c = '"' then "\\\""
  else if c = '\\' then "\\\\"
  else if c = '\n' then "\\n"
  else if c = '\r' then "\\r"
  else if c = '\t' then "\\t"
  else if c.toNat = 8 then "\\b"
  else if c.toNat = 12 then "\\f"
  else if c.toNat < 32 then "\\u00" ++ String.mk [hexDigit (c.toNat / 16), hexDigit (c.toNat % 16)]
  else String.mk [c]

/-- `JSON.stringify` escaping of a string body. -/
def jsonEscape (s : String) : String :=
  String.join (s.data.map escChar)

/-- A JSON string literal: quoted and escaped. -/
def jsonQuote (s : String) : String :=
  "\"" ++ jsonEscape s ++ "\""

mutual

/-- Compact `JSON.stringify(value)`, as used for the outbound request bodies. -/
def jsonStringify : Json → String
  | Json.null => "null"
  | Json.bool true => "true"
  | Json.bool false => "false"
  | Json.num n => toString n
  | Json.str s => jsonQuote s
  | Json.arr elems => "[" ++ stringifyArr elems ++ "]"
  | Json.obj fields => "\x7b" ++ stringifyObj fields ++ "\x7d"

def stringifyArr : List Json → String
  | [] => ""
  | [x] => jsonStringify x
  | x :: y :: rest => jsonStringify x ++ "," ++ stringifyArr (y :: rest)

def stringifyObj : List (String × Json) → String
  | [] => ""
  | [(k, v)] => jsonQuote k ++ ":" ++ jsonStringify v
  | (k, v) :: y :: rest => jsonQuote k ++ ":" ++ jsonStringify v ++ "," ++ stringifyObj (y :: rest)

end

/-- Two spaces per indentation level, the gap of `JSON.stringify(x, null, 2)`. -/
def indentStr (level : Nat) : String :=
  String.mk (List.replicate (2 * level) ' ')

mutual

/-- Pretty `JSON.stringify(value, null, 2)` at a given indentation level. -/
def jsonStringifyPretty : Nat → Json → String
  | _, Json.null => "null"
  | _, Json.bool true => "true"
  | _, Json.bool false => "false"
  | _, Json.num n => toString n
  | _, Json.str s => jsonQuote s
  | _, Json.arr [] => "[]"
  | level, Json.arr (x :: rest) =>
      "[\n" ++ prettyArr (level + 1) (x :: rest) ++ "\n" ++ indentStr level ++ "]"
  | _, Json.obj [] => "\x7b\x7d"
  | level, Json.obj (f :: rest) =>
      "\x7b\n" ++ prettyObj (level + 1) (f :: rest) ++ "\n" ++ indentStr level ++ "\x7d"

def prettyArr : Nat → List Json → String
  | _, [] => ""
  | level, [x] => indentStr level ++ jsonStringifyPretty level x
  | level, x :: y :: rest =>
      indentStr level ++ jsonStringifyPretty level x ++ ",\n" ++ prettyArr level (y :: rest)

def prettyObj : Nat → List (String × Json) → String
  | _, [] => ""
  | level, [(k, v)] => indentStr level ++ jsonQuote k ++ ": " ++ jsonStringifyPretty level v
  | level, (k, v) :: y :: rest =>
      indentStr level ++ jsonQuote k ++ ": " ++ jsonStringifyPretty level v ++ ",\n"
        ++ prettyObj level (y :: rest)

end

/-- `JSON.stringify(value, null, 2)`, as used by the structure and merger
success reports. -/
def jsonStringify2 (j : Json) : String :=
  jsonStringifyPretty 0 j

/-- `JSON.stringify(v, null, 2)` interpolated into a template:
`JSON.stringify(undefined)` is `undefined`, which prints as "undefined". -/
def stringifyInterp : Option Json → String
  | none => "undefined"
  | some j => jsonStringify2 j

/-! ## The ACT schema of src/types.ts -/

mutual

/-- A parsed ACT node: the output type of `ACTComponentSchema.parse`.
`mcpQuery` is `Option String`: `none` is the parse of the explicit JSON
`null`, distinct from `some ""`. -/
inductive ACTComponent where
  | mk (component : String) (description : String)
       (mcpQuery : Option String) (children : ACTChildren) : ACTComponent

/-- The `children` union of the schema: an array of ACT nodes, or a plain
string (`z.union([z.array(ACTComponentSchema), z.string()])`). -/
inductive ACTChildren where
  | nodes (elems : List ACTComponent) : ACTChildren
  | text (s : String) : ACTChildren

end

def ACTComponent.component : ACTComponent → String
  | .mk c _ _ _ => c

def ACTComponent.description : ACTComponent → String
  | .mk _ d _ _ => d

def ACTComponent.mcpQuery : ACTComponent → Option String
  | .mk _ _ m _ => m

def ACTComponent.children : ACTComponent → ACTChildren
  | .mk _ _ _ ch => ch

def componentKey : String := "component"

def descriptionKey : String := "description"

def mcpQueryKey : String := "mcpQuery"

def childrenKey : String := "children"

/-- `z.string()` applied to the value found at an object key (`none` when the
key is missing, i.e. the value is `undefined`). -/
def parseStringField (v : Option Json) : Except String String :=
  match v with
  | none => Except.error ("Required")
  | some (Json.str s) => Except.ok s
  | some _ => Except.error ("Expected string")

/-- `z.string().nullable()` applied to the value found at an object key:
the key must be present; an explicit `null` parses to `none`. -/
def parseNullableStringField (v : Option Json) : Except String (Option String)
  := match v with
  | none => Except.error ("Required")
  | some Json.null => Except.ok none
  | some (Json.str s) => Except.ok (some s)
  | some _ => Except.error ("Expected string or null")

mutual

/-- `ACTComponentSchema.parse` from src/types.ts: the input must be a JSON
object whose `component` and `description` are strings, whose `mcpQuery` is a
string or the explicit `null`, and whose `children` is either an array of
recursively valid ACT nodes or a plain string. -/
def parseACT : Json → Except String ACTComponent
  | Json.obj fields =>
      match parseStringField (lookupField fields componentKey) with
      | Except.error e => Except.error ("component: " ++ e)
      | Except.ok c =>
        match parseStringField (lookupField fields descriptionKey) with
        | Except.error e => Except.error ("description: " ++ e)
        | Except.ok d =>
          match parseNullableStringField (lookupField fields mcpQueryKey) with
          | Except.error e => Except.error ("mcpQuery: " ++ e)
          | Except.ok m =>
            match parseChildrenField fields with
            | Except.error e => Except.error e
            | Except.ok ch => Except.ok (ACTComponent.mk c d m ch)
  | _ => Except.error ("Expected object")

/-- Locate the `children` key (first match, as property access) and parse its
value; a missing key is the `undefined` rejected by the union. -/
def parseChildrenField : List (String × Json) → Except String ACTChildren
  | [] => Except.error ("children: Required")
  | (k, v) :: rest =>
      if k = childrenKey then parseChildrenValue v else parseChildrenField rest

/-- The `children` union: an array whose every element is a valid ACT node, or
a plain string; anything else is rejected. -/
def parseChildrenValue : Json → Except String ACTChildren
  | Json.arr elems =>
      match parseACTList elems with
      | Except.error e => Except.error e
      | Except.ok nodes => Except.ok (ACTChildren.nodes nodes)
  | Json.str s => Except.ok (ACTChildren.text s)
  | _ => Except.error ("children: Invalid input")

/-- `z.array(ACTComponentSchema)`: every element must parse. -/
def parseACTList : List Json → Except String (List ACTComponent)
  | [] => Except.ok []
  | x :: rest =>
      match parseACT x with
      | Except.error e => Except.error e
      | Except.ok a =>
        match parseACTList rest with
        | Except.error e => Except.error e
        | Except.ok others => Except.ok (a :: others)

end

/-- Boolean acceptance by `ACTComponentSchema` (`safeParse(...).success`). -/
def parseOk (j : Json) : Bool :=
  match parseACT j with
  | Except.ok _ => true
  | Except.error _ => false

/-- Boolean acceptance of a candidate `children` array. -/
def parseListOk (elems : List Json) : Bool :=
  match parseACTList elems with
  | Except.ok _ => true
  | Except.error _ => false

mutual

/-- Serialization of a parsed ACT node back to JSON, as `JSON.stringify`
sees the zod parse result (shape-key order: component, description,
mcpQuery, children; `none` back to the explicit `null`). -/
def actToJson : ACTComponent → Json
  | ACTComponent.mk c d m ch =>
      Json.obj [(componentKey, Json.str c), (descriptionKey, Json.str d),
        (mcpQueryKey, match m with | none => Json.null | some s => Json.str s),
        (childrenKey, childrenToJson ch)]

def childrenToJson : ACTChildren → Json
  | ACTChildren.text s => Json.str s
  | ACTChildren.nodes elems => Json.arr (actListToJson elems)

def actListToJson : List ACTComponent → List Json
  | [] => []
  | x :: rest => actToJson x :: actListToJson rest

end

/-! ## Configuration (src/env.ts) and startup order (src/server.ts) -/

/-- The parsed environment of src/env.ts. -/
structure Env where
  SERVER_URL : String
  SECRET : String

/-- `z.string().min(1)` applied to one `process.env` entry
(`none` = variable not set). -/
def parseEnvString (v : Option String) : Except String String :=
  match v with
  | none => Except.error ("Required")
  | some s =>
      if s.length < 1 then Except.error ("String must contain at least 1 character(s)")
      else Except.ok s

/-- `envSchema.parse(process.env)` from src/env.ts: both `SECRET` and
`SERVER_URL` must be present and non-empty, otherwise the parse throws. -/
def envParse (secret serverUrl : Option String) : Except String Env :=
  match parseEnvString secret with
  | Except.error e => Except.error ("SECRET: " ++ e)
  | Except.ok s =>
    match parseEnvString serverUrl with
    | Except.error e => Except.error ("SERVER_URL: " ++ e)
    | Except.ok u => Except.ok (Env.mk u s)

/-- The server value built by src/server.ts once module evaluation reaches the
`registerTool` calls. -/
structure McpServerState where
  name : String
  version : String
  tools : List String
deriving DecidableEq

/-- Module evaluation order of src/server.ts: importing `./env.js` runs
`envSchema.parse(process.env)` first; only when that parse succeeds does
evaluation continue to `new McpServer(...)` and the three `registerTool`
calls. A throwing parse terminates the process with no tool registered. -/
def startup (secret serverUrl : Option String) : Except String McpServerState :=
  match envParse secret serverUrl with
  | Except.error e => Except.error e
  | Except.ok _ =>
      Except.ok (McpServerState.mk ("kendoai-mcp") ("1.0.0")
        [("planner_tool" : String), "structure_tool", "merger_tool"])

/-- Whether startup succeeded. -/
def startupOk (secret serverUrl : Option String) : Bool :=
  match startup secret serverUrl with
  | Except.ok _ => true
  | Except.error _ => false

/-- The tools registered by a startup attempt: none when configuration
parsing fails fatally. -/
def registeredTools (secret serverUrl : Option String) : List String :=
  match startup secret serverUrl with
  | Except.ok st => st.tools
  | Except.error _ => []

/-! ## Transport behaviour and handler plumbing -/

/-- A JavaScript thrown value reaching a handler's `catch` branch: an `Error`
instance carrying a message, or any non-`Error` value. -/
inductive JsThrown where
  | errorObj (message : String) : JsThrown
  | nonError : JsThrown
deriving DecidableEq

/-- `error instanceof Error ? error.message : 'Unknown network error'`. -/
def thrownMessage : JsThrown → String
  | JsThrown.errorObj m => m
  | JsThrown.nonError => "Unknown network error"

/-- The JSON envelope decoded from a remote response: the values found at
`result.success`, `result.data` and `result.error` (`none` = field absent). -/
structure RemoteResponse where
  success : Option Json
  data : Option Json
  error : Option Json

/-- One observed behaviour of the remote collaborator: a decoded JSON
envelope, or a throw from `fetch`/`response.json()` (connection refused,
malformed body, ...). -/
inductive RemoteBehavior where
  | responds (result : RemoteResponse) : RemoteBehavior
  | throws (e : JsThrown) : RemoteBehavior

def undefinedWord : String := "undefined"

def nullWord : String := "null"

/-- Message of the `TypeError` thrown when reading a property of `undefined`
or `null`. -/
def typeErrorText (base key : String) : String :=
  "Cannot read properties of " ++ base ++ " (reading \x27" ++ key ++ "\x27)"

/-- JavaScript property read `v.key` on a possibly-absent value: throws a
`TypeError` on `undefined` and `null`, yields the field on an object, and
`undefined` on any other value. -/
def getProp (v : Option Json) (key : String) : Except JsThrown (Option Json) :=
  match v with
  | none => Except.error (JsThrown.errorObj (typeErrorText undefinedWord key))
  | some Json.null => Except.error (JsThrown.errorObj (typeErrorText nullWord key))
  | some (Json.obj fields) => Except.ok (lookupField fields key)
  | some _ => Except.ok none

/-- One `{type: 'text', text: ...}` content item of a tool result. -/
structure TextContent where
  type : String
  text : String
deriving DecidableEq

/-- The value a tool handler returns to the invoking agent. -/
structure ToolResult where
  content : List TextContent
deriving DecidableEq

/-- `{content: [{type: 'text', text: s}]}`, the shape every branch returns. -/
def textResult (s : String) : ToolResult :=
  ToolResult.mk [TextContent.mk ("text") s]

/-- The outbound `fetch` request: URL, method, `Content-Type` header, body. -/
structure HttpRequest where
  url : String
  method : String
  contentType : String
  body : String

/-! ## Report templates of src/server.ts (dedented template literals)

Each template literal is embedded as its static parts around the
interpolations, exactly as the JavaScript template literal is segmented. -/

def plannerApiErrorPre : String :=
  "## ❌ Planner Tool API Error\n\n**Error Details:**\n"

def plannerApiErrorDefault : String :=
  "Unknown error occurred while generating the execution plan"

def plannerApiErrorMid : String :=
  "\n\n**Troubleshooting Steps:**\n"
    ++ "1. **Check your query** - Ensure it clearly describes what you want to build\n"
    ++ "2. **Verify server connection** - The planning service may be temporarily unavailable\n"
    ++ "3. **Try again** - Temporary issues sometimes resolve with retry\n"
    ++ "4. **Simplify your request** - Break complex requirements into smaller parts\n\n"
    ++ "**Example of a good query:**\n"
    ++ "\"Create a user management dashboard with a data grid showing user information, \n"
    ++ "filters for search, and buttons to add/edit/delete users using Kendo React components\"\n\n"
    ++ "**Timestamp:** "

/-- The planner API-error report (lines 56-82 of src/server.ts): the branch
taken when `!result.success && !result.data`. -/
def plannerApiErrorText (err : Option Json) (ts : String) : String :=
  plannerApiErrorPre ++ jsOrDefault err plannerApiErrorDefault ++ plannerApiErrorMid ++ ts

def plannerSuccessPre : String :=
  "## 📋 Kendo React Page Generation Plan\n\n"
    ++ "**NEXT STEP:** Use the \x27structure_tool\x27 with this plan and the original query to generate the Abstract Component Tree.\n\n"
    ++ "### Execution Plan:\n"

def plannerSuccessPost : String :=
  "\n\n### Instructions for Next Steps:\n"
    ++ "1. **Copy this entire plan** - You\x27ll need to pass it to the structure_tool\n"
    ++ "2. **Call structure_tool** with both the original query and this execution plan\n"
    ++ "3. **Follow the plan systematically** - Each step builds upon the previous one\n"
    ++ "4. **Validate requirements** - Ensure all user requirements are captured in subsequent steps\n\n"
    ++ "**Important:** Do not proceed to implementation without first generating the component structure using the structure_tool."

/-- The planner success report (lines 84-108): embeds `result.data.plan`
by template interpolation. -/
def plannerSuccessText (plan : Option Json) : String :=
  plannerSuccessPre ++ interp plan ++ plannerSuccessPost

def plannerNetworkPre : String :=
  "## ⚠️ Planner Tool Network Error\n\n**Connection Error:**\n"

def plannerNetworkMid : String :=
  "\n\n**Possible Causes:**\n"
    ++ "1. **Server unavailable** - The planning service endpoint may be down\n"
    ++ "2. **Network issues** - Check your internet connection\n"
    ++ "3. **Configuration error** - Verify SERVER_URL and SECRET in environment\n"
    ++ "4. **Timeout** - The request may have taken too long\n\n"
    ++ "**Next Steps:**\n"
    ++ "1. Check server status and retry in a few moments\n"
    ++ "2. Verify environment configuration\n"
    ++ "3. Contact administrator if issue persists\n\n"
    ++ "**Timestamp:** "

/-- The planner catch-branch report (lines 109-137). -/
def plannerNetworkErrorText (e : JsThrown) (ts : String) : String :=
  plannerNetworkPre ++ thrownMessage e ++ plannerNetworkMid ++ ts

def structureApiErrorPre : String :=
  "## ❌ Structure Tool API Error\n\n**Error Details:**\n"

def structureApiErrorDefault : String :=
  "Unknown error occurred while generating the component structure"

def structureApiErrorMid : String :=
  "\n\n**Troubleshooting Steps:**\n"
    ++ "1. **Verify execution plan** - Ensure you\x27re passing the complete plan from planner_tool\n"
    ++ "2. **Check plan format** - The execution plan should be in the correct object format\n"
    ++ "3. **Validate query** - Ensure the original query is included and matches the plan\n"
    ++ "4. **Retry the request** - Temporary service issues may resolve automatically\n\n"
    ++ "**Required Input Format:**\n"
    ++ "- query: Original user request string\n"
    ++ "- executionPlan: Complete plan object with id, userQuery, plan, and createdAt\n\n"
    ++ "**Timestamp:** "

/-- The structure API-error report (lines 195-221). -/
def structureApiErrorText (err : Option Json) (ts : String) : String :=
  structureApiErrorPre ++ jsOrDefault err structureApiErrorDefault ++ structureApiErrorMid ++ ts

def structureSuccessPre : String :=
  "## 🏗️ Abstract Component Tree (ACT) Generated\n\n"
    ++ "**NEXT STEP:** Use the \x27merger_tool\x27 with this ACT structure to generate the final Kendo React code.\n\n"
    ++ "### Component Structure:\n"

def structureSuccessPost : String :=
  "\n\n### Instructions for Next Steps:\n"
    ++ "1. **Validate the structure** - Review the component hierarchy and ensure it matches your requirements\n"
    ++ "2. **Copy the ACT structure** - You\x27ll need to pass this exact structure to the merger_tool\n"
    ++ "3. **Call merger_tool** with the ACT structure to generate the final React code\n"
    ++ "4. **Review component choices** - Ensure the selected Kendo components align with your needs\n\n"
    ++ "### What This Structure Provides:\n"
    ++ "- **Hierarchical layout** - Shows how components nest within each other\n"
    ++ "- **Component types** - Specific Kendo React components recommended for each element\n"
    ++ "- **Descriptions** - Purpose and functionality of each component\n"
    ++ "- **MCP queries** - Specific queries to get detailed component documentation if needed\n\n"
    ++ "**Important:** This structure serves as the blueprint for code generation. Verify it captures all your requirements before proceeding to the merger_tool."

/-- The structure success report (lines 223-253): embeds
`JSON.stringify(result.data.structure, null, 2)` with no validation. -/
def structureSuccessText (st : Option Json) : String :=
  structureSuccessPre ++ stringifyInterp st ++ structureSuccessPost

def structureNetworkPre : String :=
  "## ⚠️ Structure Tool Network Error\n\n**Connection Error:**\n"

def structureNetworkMid : String :=
  "\n\n**Possible Causes:**\n"
    ++ "1. **Server unavailable** - The structure service endpoint may be down\n"
    ++ "2. **Invalid execution plan** - The plan format may not be recognized\n"
    ++ "3. **Network issues** - Check your internet connection\n"
    ++ "4. **Configuration error** - Verify SERVER_URL and SECRET in environment\n\n"
    ++ "**Next Steps:**\n"
    ++ "1. Verify the execution plan is properly formatted\n"
    ++ "2. Check server status and retry\n"
    ++ "3. Ensure you\x27re using the plan from planner_tool\n"
    ++ "4. Contact administrator if issue persists\n\n"
    ++ "**Timestamp:** "

/-- The structure catch-branch report (lines 254-283). -/
def structureNetworkErrorText (e : JsThrown) (ts : String) : String :=
  structureNetworkPre ++ thrownMessage e ++ structureNetworkMid ++ ts

def mergerApiErrorPre : String :=
  "## ❌ Code Generator API Error\n\n**Error Details:**\n"

def mergerApiErrorDefault : String :=
  "Unknown error occurred while generating the Kendo React code"

def mergerApiErrorMid : String :=
  "\n\n**Troubleshooting Steps:**\n"
    ++ "1. **Verify ACT structure** - Ensure you\x27re passing the complete Abstract Component Tree from structure_tool\n"
    ++ "2. **Check component types** - Verify all component names are valid Kendo React components\n"
    ++ "3. **Validate schema** - The ACT structure must follow the ACTComponentSchema format\n"
    ++ "4. **Review component hierarchy** - Ensure the nesting structure is logical\n\n"
    ++ "**Required Input Format:**\n"
    ++ "- actStructure: Complete ACT object with component, description, mcpQuery, and children fields\n"
    ++ "- All components should be valid Kendo React component names or HTML elements\n\n"
    ++ "**Common Issues:**\n"
    ++ "- Invalid component names (use \"Grid\", \"Button\", \"Input\", etc.)\n"
    ++ "- Missing or malformed component descriptions\n"
    ++ "- Incorrect nesting structure in children arrays\n\n"
    ++ "**Timestamp:** "

/-- The merger API-error report (lines 337-368). -/
def mergerApiErrorText (err : Option Json) (ts : String) : String :=
  mergerApiErrorPre ++ jsOrDefault err mergerApiErrorDefault ++ mergerApiErrorMid ++ ts

def mergerSuccessPre : String :=
  "## 🚀 Kendo React Code Generated Successfully!\n\n"
    ++ "### Generated Code:\n```tsx\n"

def mergerSuccessPost : String :=
  "\n```\n\n## 📋 Implementation Checklist\n\n"
    ++ "### Step 1: Create the React Component File\n"
    ++ "1. **Create the file** - Save the generated code to an appropriate location (e.g., `src/components/GeneratedPage.tsx`)\n"
    ++ "2. **Review the code** - Ensure all imports and component usage look correct\n"
    ++ "3. **Check file structure** - Verify the component follows React best practices\n\n"
    ++ "### Step 2: Install Required Dependencies\n"
    ++ "Before running any scripts, ensure all Kendo React packages are installed:\n"
    ++ "```bash\n# Check if these packages are in package.json, install if missing:\n"
    ++ "npm install @progress/kendo-react-grid\n"
    ++ "npm install @progress/kendo-react-inputs\n"
    ++ "npm install @progress/kendo-react-layout\n"
    ++ "npm install @progress/kendo-react-buttons\n"
    ++ "npm install @progress/kendo-react-dateinputs\n"
    ++ "npm install @progress/kendo-react-dropdowns\n"
    ++ "npm install @progress/kendo-theme-default\n```\n\n"
    ++ "### Step 3: Validation & Error Resolution (Run in Order)\n"
    ++ "Execute these commands and fix any errors before proceeding to the next:\n\n"
    ++ "#### 3.1 TypeScript Compilation Check\n"
    ++ "```bash\nnpx tsc --noEmit\n```\n"
    ++ "**Fix any TypeScript errors:**\n"
    ++ "- Import statements and module resolution\n"
    ++ "- Type definitions and interfaces\n"
    ++ "- Component prop types\n"
    ++ "- Missing type declarations\n\n"
    ++ "#### 3.2 ESLint Code Quality Check\n"
    ++ "```bash\nnpm run lint  # or pnpm lint\n```\n"
    ++ "**Fix any ESLint errors:**\n"
    ++ "- Code style and formatting issues\n"
    ++ "- Unused variables and imports\n"
    ++ "- Missing dependencies in useEffect\n"
    ++ "- Accessibility violations\n\n"
    ++ "#### 3.3 Build Compilation\n"
    ++ "```bash\nnpm run build  # or pnpm build\n```\n"
    ++ "**Fix any build errors:**\n"
    ++ "- Module resolution issues\n"
    ++ "- Missing dependencies\n"
    ++ "- Configuration problems\n"
    ++ "- Asset loading issues\n\n"
    ++ "#### 3.4 Code Formatting (if available)\n"
    ++ "```bash\nnpm run prettier  # or pnpm prettier (if available)\n```\n\n"
    ++ "### Step 4: Testing & Verification\n"
    ++ "1. **Start development server** - `npm start` or `npm run dev`\n"
    ++ "2. **Test component rendering** - Verify all Kendo components display correctly\n"
    ++ "3. **Test interactions** - Check buttons, inputs, and other interactive elements\n"
    ++ "4. **Test responsiveness** - Ensure layout works on different screen sizes\n"
    ++ "5. **Test data flow** - Verify state management and event handling\n\n"
    ++ "### Step 5: Common Issues & Solutions\n\n"
    ++ "#### Missing Kendo Packages:\n"
    ++ "- Install specific packages: `npm install @progress/kendo-react-[component-name]`\n"
    ++ "- Add theme CSS: `import \x27@progress/kendo-theme-default/dist/all.css\x27`\n\n"
    ++ "#### Import Errors:\n"
    ++ "- Check component names match Kendo documentation\n"
    ++ "- Verify package versions are compatible\n"
    ++ "- Use correct import paths\n\n"
    ++ "#### TypeScript Errors:\n"
    ++ "- Add type definitions: `npm install @types/[package-name]`\n"
    ++ "- Use proper typing for Kendo components\n"
    ++ "- Define interfaces for data structures\n\n"
    ++ "#### Styling Issues:\n"
    ++ "- Import Kendo theme CSS in your main App component\n"
    ++ "- Apply proper CSS classes for layout\n"
    ++ "- Check responsive breakpoints\n\n"
    ++ "### Success Criteria ✅\n"
    ++ "The implementation is complete when:\n"
    ++ "- [ ] TypeScript compilation passes without errors\n"
    ++ "- [ ] ESLint passes without warnings/errors  \n"
    ++ "- [ ] Build completes successfully\n"
    ++ "- [ ] All Kendo components render correctly\n"
    ++ "- [ ] Interactive elements function as expected\n"
    ++ "- [ ] Layout is responsive and accessible\n"
    ++ "- [ ] No console errors in browser dev tools\n\n"
    ++ "**🎉 Once all criteria are met, your Kendo React page is ready for production!**"

/-- The merger success report (lines 370-484): embeds
`JSON.stringify(result.data.code.mainComponent, null, 2)` inside a tsx fence. -/
def mergerSuccessText (mainComponent : Option Json) : String :=
  mergerSuccessPre ++ stringifyInterp mainComponent ++ mergerSuccessPost

def mergerNetworkPre : String :=
  "## ⚠️ Code Generator Network Error\n\n**Connection Error:**\n"

def mergerNetworkMid : String :=
  "\n\n**Possible Causes:**\n"
    ++ "1. **Server unavailable** - The code generation service endpoint may be down\n"
    ++ "2. **Invalid ACT structure** - The component tree format may not be recognized\n"
    ++ "3. **Network issues** - Check your internet connection\n"
    ++ "4. **Configuration error** - Verify SERVER_URL and SECRET in environment\n\n"
    ++ "**Next Steps:**\n"
    ++ "1. Verify the ACT structure is properly formatted\n"
    ++ "2. Check server status and retry\n"
    ++ "3. Ensure you\x27re using the structure from structure_tool\n"
    ++ "4. Contact administrator if issue persists\n\n"
    ++ "**Debug Info:**\n"
    ++ "- Check that actStructure contains valid component data\n"
    ++ "- Verify component types are recognized Kendo components\n"
    ++ "- Ensure the structure follows the ACT schema\n\n"
    ++ "**Timestamp:** "

/-- The merger catch-branch report (lines 485-519). -/
def mergerNetworkErrorText (e : JsThrown) (ts : String) : String :=
  mergerNetworkPre ++ thrownMessage e ++ mergerNetworkMid ++ ts

/-! ## The three tool handlers of src/server.ts

Each handler is the pair of the outbound `fetch` request it issues and the
tool result it returns. `now` is the value `new Date().toISOString()` reads
when a report is built; `nowMs` is `Date.now()` in the structure request id.
The try body is an `Except JsThrown` computation: any throw (from `fetch`,
`response.json()`, or a property read on a missing payload) is caught and
becomes the network-error report. -/

def planKey : String := "plan"

def structureKey : String := "structure"

def codeKey : String := "code"

def mainComponentKey : String := "mainComponent"

def queryKey : String := "query"

def secretKey : String := "secret"

/-- The planner request: `POST ${SERVER_URL}/api/agents/planner/generate`
with body `JSON.stringify({query, secret: env.SECRET})`. -/
def plannerRequest (env : Env) (query : String) : HttpRequest :=
  HttpRequest.mk (env.SERVER_URL ++ "/api/agents/planner/generate") ("POST")
    ("application/json")
    (jsonStringify (Json.obj [(queryKey, Json.str query), (secretKey, Json.str env.SECRET)]))

/-- The planner try body after `response.json()` resolved to `result`. -/
def plannerTryBody (result : RemoteResponse) (now : String) : Except JsThrown ToolResult :=
  if !(jsTruthy result.success) && !(jsTruthy result.data) then
    Except.ok (textResult (plannerApiErrorText result.error now))
  else
    match getProp result.data planKey with
    | Except.error e => Except.error e
    | Except.ok plan => Except.ok (textResult (plannerSuccessText plan))

/-- The `planner_tool` handler (lines 13-139 of src/server.ts). -/
def planner_tool (env : Env) (query : String) (now : String) (b : RemoteBehavior) :
    HttpRequest × ToolResult :=
  (plannerRequest env query,
    match b with
    | RemoteBehavior.throws e => textResult (plannerNetworkErrorText e now)
    | RemoteBehavior.responds result =>
        match plannerTryBody result now with
        | Except.ok r => r
        | Except.error e => textResult (plannerNetworkErrorText e now))

/-- The structure request: body
`JSON.stringify({executionPlan: {id, userQuery, plan}, query, secret})`. -/
def structureRequest (env : Env) (query plan : String) (nowMs : Nat) : HttpRequest :=
  HttpRequest.mk (env.SERVER_URL ++ "/api/agents/structure/generate") ("POST")
    ("application/json")
    (jsonStringify (Json.obj [
      ("executionPlan", Json.obj [
        ("id", Json.str ("plan-" ++ toString nowMs)),
        ("userQuery", Json.str query),
        (planKey, Json.str plan)]),
      (queryKey, Json.str query),
      (secretKey, Json.str env.SECRET)]))

/-- The structure try body after `response.json()` resolved to `result`. -/
def structureTryBody (result : RemoteResponse) (now : String) : Except JsThrown ToolResult :=
  if !(jsTruthy result.success) && !(jsTruthy result.data) then
    Except.ok (textResult (structureApiErrorText result.error now))
  else
    match getProp result.data structureKey with
    | Except.error e => Except.error e
    | Except.ok st => Except.ok (textResult (structureSuccessText st))

/-- The `structure_tool` handler (lines 141-285 of src/server.ts). -/
def structure_tool (env : Env) (query plan : String) (nowMs : Nat) (now : String)
    (b : RemoteBehavior) : HttpRequest × ToolResult :=
  (structureRequest env query plan nowMs,
    match b with
    | RemoteBehavior.throws e => textResult (structureNetworkErrorText e now)
    | RemoteBehavior.responds result =>
        match structureTryBody result now with
        | Except.ok r => r
        | Except.error e => textResult (structureNetworkErrorText e now))

/-- The merger request: body `JSON.stringify({actStructure, secret})`, where
`actStructure` is the zod-validated tool input. -/
def mergerRequest (env : Env) (act : ACTComponent) : HttpRequest :=
  HttpRequest.mk (env.SERVER_URL ++ "/api/agents/merger/generate") ("POST")
    ("application/json")
    (jsonStringify (Json.obj [("actStructure", actToJson act), (secretKey, Json.str env.SECRET)]))

/-- The merger try body: reads `result.data.code.mainComponent` (two property
reads, each able to throw) on the success path. -/
def mergerTryBody (result : RemoteResponse) (now : String) : Except JsThrown ToolResult :=
  if !(jsTruthy result.success) && !(jsTruthy result.data) then
    Except.ok (textResult (mergerApiErrorText result.error now))
  else
    match getProp result.data codeKey with
    | Except.error e => Except.error e
    | Except.ok code =>
        match getProp code mainComponentKey with
        | Except.error e => Except.error e
        | Except.ok mc => Except.ok (textResult (mergerSuccessText mc))

/-- The `merger_tool` handler (lines 287-521 of src/server.ts). Its
`actStructure` input has already passed `ACTComponentSchema` validation by
the tool-invocation framework. -/
def merger_tool (env : Env) (act : ACTComponent) (now : String) (b : RemoteBehavior) :
    HttpRequest × ToolResult :=
  (mergerRequest env act,
    match b with
    | RemoteBehavior.throws e => textResult (mergerNetworkErrorText e now)
    | RemoteBehavior.responds result =>
        match mergerTryBody result now with
        | Except.ok r => r
        | Except.error e => textResult (mergerNetworkErrorText e now))

/-! ## Helper lemmas -/

theorem string_append_cancel_left {a b c : String} (h : a ++ b = a ++ c) : b = c := by
  apply String.ext
  have hd := congrArg String.data h
  rw [String.data_append, String.data_append] at hd
  exact List.append_cancel_left hd

/-- A candidate ACT node around a given `children` value, with the other
three schema fields filled with accepted values. -/
def childNode (ch : Json) : Json :=
  Json.obj [(componentKey, Json.str ("Grid")), (descriptionKey, Json.str ("desc")),
    (mcpQueryKey, Json.null), (childrenKey, ch)]

theorem parseACT_childNode (ch : Json) :
    parseACT (childNode ch) =
      match parseChildrenValue ch with
      | Except.error e => Except.error e
      | Except.ok c => Except.ok (ACTComponent.mk ("Grid") ("desc") none c) := by
  rfl

theorem parseListOk_eq_false_of_mem {xs : List Json} {x : Json}
    (hx : x ∈ xs) (hfail : parseOk x = false) : parseListOk xs = false := by
  induction xs with
  | nil => cases hx
  | cons y ys ih =>
      rcases List.mem_cons.mp hx with rfl | hmem
      · rcases hy : parseACT x with e | a
        · simp only [parseListOk, parseACTList, hy]
        · simp only [parseOk, hy] at hfail
          exact Bool.noConfusion hfail
      · rcases hy : parseACT y with e | a
        · simp only [parseListOk, parseACTList, hy]
        · have hys2 := ih hmem
          rcases hys : parseACTList ys with e | os
          · simp only [parseListOk, parseACTList, hy, hys]
          · simp only [parseListOk, hys] at hys2
            exact Bool.noConfusion hys2

/-- A candidate ACT node with given `component`, `description` and `mcpQuery`
values and an empty-string `children` leaf. -/
def nodeWithMcpQuery (c d : String) (m : Json) : Json :=
  Json.obj [(componentKey, Json.str c), (descriptionKey, Json.str d),
    (mcpQueryKey, m), (childrenKey, Json.str (""))]

/-- A candidate ACT node whose `mcpQuery` key is missing entirely. -/
def nodeMissingMcpQuery : Json :=
  Json.obj [(componentKey, Json.str ("Grid")), (descriptionKey, Json.str ("desc")),
    (childrenKey, Json.str (""))]

/-- Is the JSON value a string? -/
def jsonIsString : Json → Bool
  | Json.str _ => true
  | _ => false

/-- Is the JSON value an array? -/
def jsonIsArray : Json → Bool
  | Json.arr _ => true
  | _ => false

/-! ## Claims -/

/-- C3 counterexample: the claim says a node whose `component` or
`description` is the empty string is rejected, but `ACTComponentSchema` uses
plain `z.string()` with no minimum length, so the node with empty `component`
and empty `description` parses successfully. -/
theorem c3_empty_component_description_accepted :
    parseACT (nodeWithMcpQuery ("") ("") Json.null) =
      Except.ok (ACTComponent.mk ("") ("") none (ACTChildren.text (""))) := by
  rfl

/-- C3 (amended): validation accepts a node exactly when its `component` and
`description` fields are present strings - the empty string included; a
missing or non-string `component`, and a missing or non-string
`description`, are each rejected. -/
theorem c3_component_description_string_gate (c d : String) :
    parseACT (nodeWithMcpQuery c d Json.null) =
        Except.ok (ACTComponent.mk c d none (ACTChildren.text ("")))
      ∧ parseOk (Json.obj [(descriptionKey, Json.str d), (mcpQueryKey, Json.null),
          (childrenKey, Json.str (""))]) = false
      ∧ parseOk (Json.obj [(componentKey, Json.num 1), (descriptionKey, Json.str d),
          (mcpQueryKey, Json.null), (childrenKey, Json.str (""))]) = false
      ∧ parseOk (Json.obj [(componentKey, Json.str c), (mcpQueryKey, Json.null),
          (childrenKey, Json.str (""))]) = false
      ∧ parseOk (Json.obj [(componentKey, Json.str c), (descriptionKey, Json.num 1),
          (mcpQueryKey, Json.null), (childrenKey, Json.str (""))]) = false := by
  exact ⟨rfl, rfl, rfl, rfl, rfl⟩

/-- C4: the `children` field is a tagged union: the empty-string leaf and the
empty array are both valid and parse to distinct non-coerced values, a value
that is neither a string nor an array is rejected, and an array containing
any element that itself fails validation is rejected. -/
theorem c4_children_tagged_union :
    parseACT (childNode (Json.str (""))) =
        Except.ok (ACTComponent.mk ("Grid") ("desc") none (ACTChildren.text ("")))
      ∧ parseACT (childNode (Json.arr [])) =
        Except.ok (ACTComponent.mk ("Grid") ("desc") none (ACTChildren.nodes []))
      ∧ ACTChildren.text ("") ≠ ACTChildren.nodes []
      ∧ (∀ j : Json, jsonIsString j = false → jsonIsArray j = false →
          parseOk (childNode j) = false)
      ∧ (∀ (xs : List Json) (x : Json), x ∈ xs → parseOk x = false →
          parseOk (childNode (Json.arr xs)) = false) := by
  refine ⟨rfl, rfl, fun h => ACTChildren.noConfusion h, ?_, ?_⟩
  · intro j hs ha
    cases j with
    | null => rfl
    | bool b => rfl
    | num n => rfl
    | str s => exact Bool.noConfusion hs
    | arr elems => exact Bool.noConfusion ha
    | obj fields => rfl
  · intro xs x hx hf
    have hL := parseListOk_eq_false_of_mem hx hf
    rcases hys : parseACTList xs with e | os
    · simp only [parseOk, parseACT_childNode, parseChildrenValue, hys]
    · simp only [parseListOk, hys] at hL
      exact Bool.noConfusion hL

/-- C4 witness: a numeric `children` value is rejected, and an array
containing an invalid element is rejected. -/
theorem c4_children_tagged_union_witness :
    parseOk (childNode (Json.num 5)) = false
      ∧ parseOk (childNode (Json.arr [Json.num 1])) = false :=
  ⟨c4_children_tagged_union.2.2.2.1 (Json.num 5) rfl rfl,
   c4_children_tagged_union.2.2.2.2 [Json.num 1] (Json.num 1) (List.mem_singleton.mpr rfl) rfl⟩

/-- C5 counterexample: the claim says a node whose `docQuery`/`mcpQuery`
field is absent is accepted, but the schema uses `z.string().nullable()`
(not `.optional()`), so a node missing the `mcpQuery` key entirely is
rejected with a Required error. -/
theorem c5_missing_mcpQuery_rejected :
    parseACT nodeMissingMcpQuery = Except.error ("mcpQuery: Required") := by
  rfl

/-- C5 (amended): absence of `mcpQuery` must be written as the explicit JSON
`null`, which parses to the explicit absence value `none`, distinct from the
empty string `some ""`; a node whose `mcpQuery` key is missing entirely is
rejected. -/
theorem c5_mcpQuery_null_is_explicit_absence (c d : String) :
    parseACT (nodeWithMcpQuery c d Json.null) =
        Except.ok (ACTComponent.mk c d none (ACTChildren.text ("")))
      ∧ parseACT (nodeWithMcpQuery c d (Json.str (""))) =
        Except.ok (ACTComponent.mk c d (some ("")) (ACTChildren.text ("")))
      ∧ (none : Option String) ≠ some ("")
      ∧ parseOk nodeMissingMcpQuery = false := by
  refine ⟨rfl, rfl, fun h => Option.noConfusion h, rfl⟩

/-- C6: if either required configuration value is unset or empty,
`envSchema.parse(process.env)` throws while src/env.ts is imported, which is
before any `registerTool` call runs: startup fails and no tool is
registered, so configuration absence never becomes a runtime stage error. -/
theorem c6_missing_config_prevents_startup (secret serverUrl : Option String)
    (h : secret = none ∨ secret = some ("") ∨ serverUrl = none ∨ serverUrl = some ("")) :
    startupOk secret serverUrl = false ∧ registeredTools secret serverUrl = [] := by
  have herr : ∃ e, envParse secret serverUrl = Except.error e := by
    rcases h with rfl | rfl | rfl | rfl
    · exact ⟨_, rfl⟩
    · exact ⟨_, rfl⟩
    · rcases secret with _ | s
      · exact ⟨_, rfl⟩
      · unfold envParse parseEnvString
        by_cases hs : s.length < 1
        · simp [hs]
        · simp [hs]
    · rcases secret with _ | s
      · exact ⟨_, rfl⟩
      · unfold envParse parseEnvString
        by_cases hs : s.length < 1
        · simp [hs]
        · simp [hs]
  obtain ⟨e, he⟩ := herr
  constructor <;> simp [startupOk, registeredTools, startup, he]

/-- C6 witness: with no SECRET set, startup fails and registers nothing. -/
theorem c6_missing_config_prevents_startup_witness :
    startupOk none (some ("http://localhost:3000")) = false
      ∧ registeredTools none (some ("http://localhost:3000")) = [] :=
  c6_missing_config_prevents_startup none (some ("http://localhost:3000")) (Or.inl rfl)

/-- C1: every handler checks `!result.success && !result.data` (AND), not
the OR the spec requires. On a response with `success: false` but a present
`data` field, all three handlers take the success branch and return the
success report, not a failure report. -/
theorem c1_success_false_with_data_takes_success_branch
    (env : Env) (query plan now : String) (nowMs : Nat) (act : ACTComponent) :
    (planner_tool env query now (RemoteBehavior.responds
        (RemoteResponse.mk (some (Json.bool false))
          (some (Json.obj [(planKey, Json.str ("a plan"))])) (some (Json.str ("err")))))).2
      = textResult (plannerSuccessText (some (Json.str ("a plan"))))
    ∧ (structure_tool env query plan nowMs now (RemoteBehavior.responds
        (RemoteResponse.mk (some (Json.bool false))
          (some (Json.obj [(structureKey, Json.obj [])])) (some (Json.str ("err")))))).2
      = textResult (structureSuccessText (some (Json.obj [])))
    ∧ (merger_tool env act now (RemoteBehavior.responds
        (RemoteResponse.mk (some (Json.bool false))
          (some (Json.obj [(codeKey, Json.obj [(mainComponentKey, Json.str ("X"))])]))
          (some (Json.str ("err")))))).2
      = textResult (mergerSuccessText (some (Json.str ("X")))) := by
  exact ⟨rfl, rfl, rfl⟩

/-- A concrete environment for closed evaluations. -/
def env0 : Env := Env.mk ("http://localhost:3000") ("secret-token")

/-- The invalid artifact of the spec's Scenario 3: empty `description`
(and no `mcpQuery` key). -/
def scenario3Structure : Json :=
  Json.obj [(componentKey, Json.str ("Grid")), (descriptionKey, Json.str ("")),
    (childrenKey, Json.str ("x"))]

/-- C2 counterexample: on the Scenario-3 response the structure_tool returns
the success report embedding the artifact verbatim, although the artifact
fails `ACTComponentSchema` validation; the claimed MalformedArtifact failure
path does not exist in the handler. -/
theorem c2_invalid_artifact_forwarded_as_success :
    (structure_tool env0 ("q") ("p") 0 ("2024-01-01T00:00:00.000Z")
        (RemoteBehavior.responds (RemoteResponse.mk (some (Json.bool true))
          (some (Json.obj [(structureKey, scenario3Structure)])) none))).2
      = textResult (structureSuccessText (some scenario3Structure))
    ∧ parseOk scenario3Structure = false := by
  exact ⟨rfl, rfl⟩

/-- C2 (amended): the structure_tool performs no schema validation of the
returned artifact: for every response with truthy `success` whose `data` is
an object, the handler reports success embedding
`JSON.stringify(result.data.structure, null, 2)`, whatever that value is. -/
theorem c2_structure_success_skips_validation
    (env : Env) (query plan : String) (nowMs : Nat) (now : String)
    (r : RemoteResponse) (fields : List (String × Json))
    (hs : jsTruthy r.success = true) (hd : r.data = some (Json.obj fields)) :
    (structure_tool env query plan nowMs now (RemoteBehavior.responds r)).2
      = textResult (structureSuccessText (lookupField fields structureKey)) := by
  rcases r with ⟨su, da, er⟩
  simp only at hs hd
  subst hd
  simp [structure_tool, structureTryBody, hs, getProp]

/-- C2 amended-claim witness: the Scenario-3 artifact is embedded in the
success report with no validation. -/
theorem c2_structure_success_skips_validation_witness :
    (structure_tool env0 ("q") ("p") 0 ("2024-01-01T00:00:00.000Z")
        (RemoteBehavior.responds (RemoteResponse.mk (some (Json.bool true))
          (some (Json.obj [(structureKey, scenario3Structure)])) none))).2
      = textResult (structureSuccessText
          (lookupField [(structureKey, scenario3Structure)] structureKey)) :=
  c2_structure_success_skips_validation env0 ("q") ("p") 0 ("2024-01-01T00:00:00.000Z")
    (RemoteResponse.mk (some (Json.bool true))
      (some (Json.obj [(structureKey, scenario3Structure)])) none)
    [(structureKey, scenario3Structure)] rfl rfl

/-- C8: on `{success:false, error:"rate limited"}` with no `data`, the
planner handler returns the API-error failure report - the code's
remote-rejection branch - whose text embeds "rate limited" as the error
detail and ends with the timestamp. -/
theorem c8_rate_limited_is_remote_rejection (env : Env) (query now : String) :
    (planner_tool env query now (RemoteBehavior.responds
        (RemoteResponse.mk (some (Json.bool false)) none
          (some (Json.str ("rate limited")))))).2
      = textResult (plannerApiErrorText (some (Json.str ("rate limited"))) now)
    ∧ plannerApiErrorText (some (Json.str ("rate limited"))) now
      = plannerApiErrorPre ++ ("rate limited") ++ plannerApiErrorMid ++ now := by
  exact ⟨rfl, rfl⟩

/-- A concrete valid ACT node for closed evaluations of merger_tool. -/
def act0 : ACTComponent := ACTComponent.mk ("Grid") ("desc") none (ACTChildren.text (""))

/-- C7 counterexample: the claim says every explicit remote failure yields a
failure report, but on `{success:false, error:"boom"}` with a present `data`
payload the merger handler returns the success report (the AND in
`!result.success && !result.data` skips the failure branch). -/
theorem c7_explicit_failure_reported_as_success :
    (merger_tool env0 act0 ("2024-01-01T00:00:00.000Z")
        (RemoteBehavior.responds (RemoteResponse.mk (some (Json.bool false))
          (some (Json.obj [(codeKey, Json.obj [(mainComponentKey, Json.str ("X"))])]))
          (some (Json.str ("boom")))))).2
      = textResult (mergerSuccessText (some (Json.str ("X")))) := by
  rfl

/-- C7 (amended): every thrown transport fault, every response with falsy
`success` AND falsy `data`, and every missing payload on a response taking
the success branch (truthy `success` with `data` absent: the `TypeError`
from `result.data.<field>` is caught) is converted at the stage boundary
into the corresponding failure report - network-error or API-error - which
embeds the originating cause, remediation guidance (the static template
part), and ends with the timestamp; no fault propagates unhandled. Only a
response with explicit failure but truthy `data` is instead processed as a
success (see C1). -/
theorem c7_failures_become_failure_reports
    (env : Env) (query plan now : String) (nowMs : Nat) (act : ACTComponent)
    (t : JsThrown) (r r2 : RemoteResponse)
    (hs : jsTruthy r.success = false) (hd : jsTruthy r.data = false)
    (hs2 : jsTruthy r2.success = true) (hd2 : r2.data = none) :
    (planner_tool env query now (RemoteBehavior.throws t)).2
      = textResult (plannerNetworkPre ++ thrownMessage t ++ plannerNetworkMid ++ now)
    ∧ (structure_tool env query plan nowMs now (RemoteBehavior.throws t)).2
      = textResult (structureNetworkPre ++ thrownMessage t ++ structureNetworkMid ++ now)
    ∧ (merger_tool env act now (RemoteBehavior.throws t)).2
      = textResult (mergerNetworkPre ++ thrownMessage t ++ mergerNetworkMid ++ now)
    ∧ (planner_tool env query now (RemoteBehavior.responds r)).2
      = textResult (plannerApiErrorPre ++ jsOrDefault r.error plannerApiErrorDefault
          ++ plannerApiErrorMid ++ now)
    ∧ (structure_tool env query plan nowMs now (RemoteBehavior.responds r)).2
      = textResult (structureApiErrorPre ++ jsOrDefault r.error structureApiErrorDefault
          ++ structureApiErrorMid ++ now)
    ∧ (merger_tool env act now (RemoteBehavior.responds r)).2
      = textResult (mergerApiErrorPre ++ jsOrDefault r.error mergerApiErrorDefault
          ++ mergerApiErrorMid ++ now)
    ∧ (planner_tool env query now (RemoteBehavior.responds r2)).2
      = textResult (plannerNetworkPre ++ typeErrorText undefinedWord planKey
          ++ plannerNetworkMid ++ now)
    ∧ (structure_tool env query plan nowMs now (RemoteBehavior.responds r2)).2
      = textResult (structureNetworkPre ++ typeErrorText undefinedWord structureKey
          ++ structureNetworkMid ++ now)
    ∧ (merger_tool env act now (RemoteBehavior.responds r2)).2
      = textResult (mergerNetworkPre ++ typeErrorText undefinedWord codeKey
          ++ mergerNetworkMid ++ now) := by
  have hmiss : ∀ key, getProp r2.data key
      = Except.error (JsThrown.errorObj (typeErrorText undefinedWord key)) := by
    intro key
    rw [hd2]
    rfl
  refine ⟨rfl, rfl, rfl, ?_, ?_, ?_, ?_, ?_, ?_⟩
  · simp [planner_tool, plannerTryBody, hs, hd, plannerApiErrorText]
  · simp [structure_tool, structureTryBody, hs, hd, structureApiErrorText]
  · simp [merger_tool, mergerTryBody, hs, hd, mergerApiErrorText]
  · simp [planner_tool, plannerTryBody, hs2, hmiss, plannerNetworkErrorText, thrownMessage]
  · simp [structure_tool, structureTryBody, hs2, hmiss, structureNetworkErrorText,
      thrownMessage]
  · simp [merger_tool, mergerTryBody, hs2, hmiss, mergerNetworkErrorText, thrownMessage]

/-- C7 witness: a rejected response with no payload yields the planner
API-error failure report at a concrete input. -/
theorem c7_failures_become_failure_reports_witness :
    (planner_tool env0 ("q") ("2024-01-01T00:00:00.000Z") (RemoteBehavior.responds
        (RemoteResponse.mk (some (Json.bool false)) none (some (Json.str ("boom")))))).2
      = textResult (plannerApiErrorPre
          ++ jsOrDefault (some (Json.str ("boom"))) plannerApiErrorDefault
          ++ plannerApiErrorMid ++ ("2024-01-01T00:00:00.000Z")) :=
  (c7_failures_become_failure_reports env0 ("q") ("p") ("2024-01-01T00:00:00.000Z") 0 act0
    JsThrown.nonError
    (RemoteResponse.mk (some (Json.bool false)) none (some (Json.str ("boom"))))
    (RemoteResponse.mk (some (Json.bool true)) none none) rfl rfl rfl rfl).2.2.2.1

/-- C9 counterexample: formatting is not a pure function of the outcome
alone: the failure report embeds `new Date().toISOString()` read at
formatting time, so the same failure outcome formatted at two different
clock readings yields different reports. -/
theorem c9_failure_report_depends_on_clock :
    (planner_tool env0 ("q") ("2024-01-01T00:00:00.000Z") (RemoteBehavior.responds
        (RemoteResponse.mk (some (Json.bool false)) none (some (Json.str ("boom")))))).2
      ≠ (planner_tool env0 ("q") ("2024-01-01T00:00:01.000Z") (RemoteBehavior.responds
        (RemoteResponse.mk (some (Json.bool false)) none (some (Json.str ("boom")))))).2 := by
  intro h
  have h2 : plannerApiErrorText (some (Json.str ("boom"))) ("2024-01-01T00:00:00.000Z")
      = plannerApiErrorText (some (Json.str ("boom"))) ("2024-01-01T00:00:01.000Z") := by
    have h1 := congrArg ToolResult.content h
    simpa [planner_tool, plannerTryBody, textResult, jsTruthy] using h1
  unfold plannerApiErrorText at h2
  have h3 := string_append_cancel_left h2
  exact absurd h3 (by decide)

/-- C9 (amended): formatting is a deterministic pure function of the outcome
together with the clock reading: success reports do not depend on the clock
at all and embed the artifact verbatim - the plan text by direct
interpolation, the structure artifact as its 2-space JSON serialization -
while failure reports are determined by the outcome plus the timestamp,
which is their only clock-dependent part. -/
theorem c9_formatting_deterministic_given_clock
    (env : Env) (query plan : String) (nowMs : Nat) (now : String) :
    (∀ (r : RemoteResponse) (fields : List (String × Json)) (p : String),
      jsTruthy r.success = true → r.data = some (Json.obj fields) →
      lookupField fields planKey = some (Json.str p) →
      (planner_tool env query now (RemoteBehavior.responds r)).2
        = textResult (plannerSuccessPre ++ p ++ plannerSuccessPost))
    ∧ (∀ (r : RemoteResponse) (fields : List (String × Json)) (st : Json),
      jsTruthy r.success = true → r.data = some (Json.obj fields) →
      lookupField fields structureKey = some st →
      (structure_tool env query plan nowMs now (RemoteBehavior.responds r)).2
        = textResult (structureSuccessPre ++ jsonStringify2 st ++ structureSuccessPost))
    ∧ (∀ r : RemoteResponse,
      jsTruthy r.success = false → jsTruthy r.data = false →
      (planner_tool env query now (RemoteBehavior.responds r)).2
        = textResult (plannerApiErrorPre ++ jsOrDefault r.error plannerApiErrorDefault
            ++ plannerApiErrorMid ++ now)) := by
  refine ⟨?_, ?_, ?_⟩
  · intro r fields p hs hd hp
    rcases r with ⟨su, da, er⟩
    simp only at hs hd
    subst hd
    simp [planner_tool, plannerTryBody, hs, getProp, hp, plannerSuccessText, interp, jsToString]
  · intro r fields st hs hd hst
    rcases r with ⟨su, da, er⟩
    simp only at hs hd
    subst hd
    simp [structure_tool, structureTryBody, hs, getProp, hst, structureSuccessText,
      stringifyInterp]
  · intro r hs hd
    simp [planner_tool, plannerTryBody, hs, hd, plannerApiErrorText]

/-- C9 amended-claim witness: a successful planner outcome formats to the
success report embedding the plan text verbatim, with no clock dependence. -/
theorem c9_formatting_deterministic_given_clock_witness :
    (planner_tool env0 ("q") ("2024-01-01T00:00:00.000Z") (RemoteBehavior.responds
        (RemoteResponse.mk (some (Json.bool true))
          (some (Json.obj [(planKey, Json.str ("the plan"))])) none))).2
      = textResult (plannerSuccessPre ++ ("the plan") ++ plannerSuccessPost) :=
  (c9_formatting_deterministic_given_clock env0 ("q") ("p") 0
      ("2024-01-01T00:00:00.000Z")).1
    (RemoteResponse.mk (some (Json.bool true))
      (some (Json.obj [(planKey, Json.str ("the plan"))])) none)
    [(planKey, Json.str ("the plan"))] ("the plan") rfl rfl rfl

/-- C10: the authorization secret flows only into the outbound request body:
under any two secrets the reports returned by all three handlers are
identical for every input and remote behaviour (noninterference), the
request URL and Content-Type header do not depend on the secret, and each
request body is exactly the JSON serialization carrying the `secret` field. -/
theorem c10_secret_only_in_request_body
    (url s1 s2 query plan now : String) (nowMs : Nat) (act : ACTComponent)
    (b : RemoteBehavior) :
    (planner_tool (Env.mk url s1) query now b).2
      = (planner_tool (Env.mk url s2) query now b).2
    ∧ (structure_tool (Env.mk url s1) query plan nowMs now b).2
      = (structure_tool (Env.mk url s2) query plan nowMs now b).2
    ∧ (merger_tool (Env.mk url s1) act now b).2
      = (merger_tool (Env.mk url s2) act now b).2
    ∧ (planner_tool (Env.mk url s1) query now b).1.url
      = (planner_tool (Env.mk url s2) query now b).1.url
    ∧ (structure_tool (Env.mk url s1) query plan nowMs now b).1.url
      = (structure_tool (Env.mk url s2) query plan nowMs now b).1.url
    ∧ (merger_tool (Env.mk url s1) act now b).1.url
      = (merger_tool (Env.mk url s2) act now b).1.url
    ∧ (planner_tool (Env.mk url s1) query now b).1.contentType = ("application/json")
    ∧ (planner_tool (Env.mk url s1) query now b).1.body
      = jsonStringify (Json.obj [(queryKey, Json.str query), (secretKey, Json.str s1)])
    ∧ (structure_tool (Env.mk url s1) query plan nowMs now b).1.body
      = jsonStringify (Json.obj [
          ("executionPlan", Json.obj [
            ("id", Json.str ("plan-" ++ toString nowMs)),
            ("userQuery", Json.str query),
            (planKey, Json.str plan)]),
          (queryKey, Json.str query),
          (secretKey, Json.str s1)])
    ∧ (merger_tool (Env.mk url s1) act now b).1.body
      = jsonStringify (Json.obj [("actStructure", actToJson act),
          (secretKey, Json.str s1)]) := by
  exact ⟨rfl, rfl, rfl, rfl, rfl, rfl, rfl, rfl, rfl, rfl⟩

end KendoMcp
